import Mathlib

/-
Verification of the GlossGen analysis pipeline (a GitHub repository /
profile analyzer).

The repository ships two parallel implementations of its service layer:
  * `src/services/githubService.ts` — the module imported by the live pages
    (`ResultsPage.tsx`, `ProfileResultsPage.tsx`); embedded here under the
    plain names.
  * a second variant of the same module (an unnamed source file of this
    repository) that additionally fetches a contribution calendar; embedded
    here under names carrying the `V2` marker.
The contribution-calendar grid component (`ContributionChart`) is embedded
as well.

Modelling conventions:
  * JavaScript strings are Lean `String`s; `String.endsWith`,
    `String.startsWith`, `String.includes` are embedded via the
    corresponding `List Char` operations on `String.data`.
  * JavaScript numbers that the verified claims only compare or default are
    modelled as `Int`.
  * `x || d` on numbers/strings (falsy defaulting) is modelled by `jsOrNum`
    / `jsOrStr`; absent object fields are `Option`s.
  * Calendar dates are modelled as integer day indices (days since the Unix
    epoch, UTC); ISO-8601 date strings biject with these indices, so a map
    keyed by ISO date strings is modelled as a lookup keyed by the index.
  * The effectful orchestration of `analyzeRepo` is embedded as a pure
    function of the already-fetched inputs, returning `Except` for the
    thrown errors paired with a Bool recording whether control reached the
    AI `generateContent` call.
-/

namespace GlossGen

/-- JS `path.endsWith(s)`, via the character list of the string. -/
def strEndsWith (s suf : String) : Bool := suf.data.isSuffixOf s.data

/-- JS `path.startsWith(s)`. -/
def strStartsWith (s pre : String) : Bool := pre.data.isPrefixOf s.data

/-- Does `needle` occur as a contiguous run inside the second list? -/
def hasInfix (needle : List Char) : List Char → Bool
  | [] => needle.isPrefixOf []
  | c :: t => needle.isPrefixOf (c :: t) || hasInfix needle t

/-- JS `s.includes(sub)` (substring containment). -/
def strIncludes (s sub : String) : Bool := hasInfix sub.data s.data

/-- One entry of the recursive git tree: `{ path, type }` ("blob" = file). -/
structure FileEntry where
  path : String
  type : String
  deriving DecidableEq, Repr

/-- `SOURCE_EXTENSIONS` from `selectRepresentativeFiles` (note: the last two
entries lack a leading dot, exactly as in the source). -/
def SOURCE_EXTENSIONS : List String :=
  [".js", ".jsx", ".ts", ".tsx", ".py", ".go", ".rs", ".java", ".rb", ".php", "vue", "svelte"]

/-- `EXCLUDED_DIRS` from `selectRepresentativeFiles`. -/
def EXCLUDED_DIRS : List String :=
  ["node_modules", "dist", "build", "vendor", "test", "tests", "docs", "examples", ".github", "assets"]

/-- `isSourceFile` from `selectRepresentativeFiles`:
`SOURCE_EXTENSIONS.some(ext => path.endsWith(ext) && !path.endsWith(`.min${ext}`))`. -/
def isSourceFile (path : String) : Bool :=
  SOURCE_EXTENSIONS.any fun ext => strEndsWith path ext && !(strEndsWith path (".min" ++ ext))

/-- `isNotExcluded` from `selectRepresentativeFiles`:
`!EXCLUDED_DIRS.some(dir => path.includes(`/${dir}/`) || path.startsWith(`${dir}/`))`. -/
def isNotExcluded (path : String) : Bool :=
  !(EXCLUDED_DIRS.any fun dir => strIncludes path ("/" ++ dir ++ "/") || strStartsWith path (dir ++ "/"))

/-- The Content Sampler of `src/services/githubService.ts`: filter to blob
entries passing both predicates, project to paths, cap at 15. -/
def selectRepresentativeFiles (files : List FileEntry) : List String :=
  ((files.filter fun file =>
      file.type == "blob" && isSourceFile file.path && isNotExcluded file.path).map
    (fun file => file.path)).take 15

/-- The Content Sampler of the second service variant: identical filters but
capped at 5 (`.slice(0, 5)`). -/
def selectRepresentativeFilesV2 (files : List FileEntry) : List String :=
  ((files.filter fun file =>
      file.type == "blob" && isSourceFile file.path && isNotExcluded file.path).map
    (fun file => file.path)).take 5

/-- A small concrete file tree used to instantiate the universally
quantified theorems. -/
def demoTree : List FileEntry :=
  [⟨"src/app.ts", "blob"⟩, ⟨"lib.min.js", "blob"⟩, ⟨"node_modules/x/index.js", "blob"⟩,
   ⟨"docs/guide.ts", "blob"⟩, ⟨"src", "tree"⟩]

/-- Every sampled path comes from a blob entry of the tree that passes both
filter predicates (shared between the sampler claims). -/
theorem mem_selectRepresentativeFiles {files : List FileEntry} {p : String}
    (hp : p ∈ selectRepresentativeFiles files) :
    ∃ f, f ∈ files ∧ f.path = p ∧ f.type = "blob" ∧
      isSourceFile p = true ∧ isNotExcluded p = true := by
  unfold selectRepresentativeFiles at hp
  have hp' := List.mem_of_mem_take hp
  obtain ⟨f, hf, rfl⟩ := List.mem_map.1 hp'
  have hmem := List.mem_filter.1 hf
  have hq := hmem.2
  simp only [Bool.and_eq_true, beq_iff_eq] at hq
  exact ⟨f, hmem.1, rfl, hq.1.1, hq.1.2, hq.2⟩

/-- C1: the Content Sampler returns at most 15 paths (in both service
variants), every returned path comes from a blob-kind tree entry whose path
passes the extension allow-list and the excluded-directory filters, and the
output is a sublist of the tree's path sequence, hence preserves tree order.
Determinism is definitional: the sampler is embedded as a pure function of
the tree. -/
theorem selectRepresentativeFiles_spec (files : List FileEntry) :
    (selectRepresentativeFiles files).length ≤ 15 ∧
    (selectRepresentativeFilesV2 files).length ≤ 15 ∧
    (∀ p ∈ selectRepresentativeFiles files,
      ∃ f, f ∈ files ∧ f.path = p ∧ f.type = "blob" ∧
        isSourceFile p = true ∧ isNotExcluded p = true) ∧
    (selectRepresentativeFiles files).Sublist (files.map FileEntry.path) := by
  refine ⟨List.length_take_le _ _, le_trans (List.length_take_le _ _) (by norm_num), ?_, ?_⟩
  · exact fun p hp => mem_selectRepresentativeFiles hp
  · exact (List.take_sublist _ _).trans ((List.filter_sublist files).map FileEntry.path)

/-- Witness for the sampler theorem at a concrete tree: `src/app.ts` is
selected and satisfies the filter predicates. -/
theorem selectRepresentativeFiles_spec_witness :
    ∃ f, f ∈ demoTree ∧ f.path = "src/app.ts" ∧ f.type = "blob" ∧
      isSourceFile "src/app.ts" = true ∧ isNotExcluded "src/app.ts" = true :=
  (selectRepresentativeFiles_spec demoTree).2.2.1 "src/app.ts" (by decide)

/-- Bool-level suffix test versus the propositional suffix relation. -/
theorem strEndsWith_iff {s t : String} : strEndsWith s t = true ↔ t.data <:+ s.data := by
  simp [strEndsWith]

/-- C10: no path returned by the Content Sampler ends with `.min` followed
by one of the recognized source extensions; the extension allow-list guard
`!path.endsWith(`.min${ext}`)` rules such paths out under every extension of
the list. -/
theorem selected_never_min_suffixed (files : List FileEntry) (p : String)
    (hp : p ∈ selectRepresentativeFiles files) (e : String) (he : e ∈ SOURCE_EXTENSIONS) :
    strEndsWith p (".min" ++ e) = false := by
  obtain ⟨f, hf, hfp, hb, hsrc, hex⟩ := mem_selectRepresentativeFiles hp
  simp only [isSourceFile, List.any_eq_true, Bool.and_eq_true, Bool.not_eq_true'] at hsrc
  obtain ⟨ext₀, hext₀, hc1, hc2⟩ := hsrc
  by_contra hne
  have h : strEndsWith p (".min" ++ e) = true := by
    revert hne; cases strEndsWith p (".min" ++ e) <;> simp
  have h1 : (".min" ++ e).data <:+ p.data := strEndsWith_iff.mp h
  have h2 : ext₀.data <:+ p.data := strEndsWith_iff.mp hc1
  have hg : ¬ (".min" ++ ext₀).data <:+ p.data := by
    intro hx
    have hx' := strEndsWith_iff.mpr hx
    rw [hc2] at hx'
    exact Bool.false_ne_true hx'
  unfold SOURCE_EXTENSIONS at he hext₀
  fin_cases he <;> fin_cases hext₀ <;>
    (rcases List.suffix_or_suffix_of_suffix h2 h1 with hc | hc <;>
      first
        | exact hg h1
        | exact absurd hc (by decide))

/-- Witness for the minified-file theorem at a concrete tree, extension and
selected path. -/
theorem selected_never_min_suffixed_witness :
    strEndsWith "src/app.ts" (".min" ++ ".ts") = false :=
  selected_never_min_suffixed demoTree "src/app.ts" (by decide) ".ts" (by decide)

/-- One record of the contribution feed: `{ date, count, level }`, with the
date as an integer day index (days since the Unix epoch, UTC). -/
structure ContributionDay where
  date : Int
  count : Int
  level : Int
  deriving DecidableEq, Repr

/-- JS `Date.prototype.getDay` on a day index: day 0 (1970-01-01) was a
Thursday, so `getDay = (d + 4) mod 7` with a nonnegative remainder. -/
def jsGetDay (d : Int) : Int := (d + 4) % 7

/-- `new Map(data.map(d => [d.date, d]))` followed by `.get`: the last entry
with the looked-up date wins, absent dates give `none`. -/
def contributionsByDate (data : List ContributionDay) (d : Int) : Option ContributionDay :=
  data.foldl (fun acc c => if c.date = d then some c else acc) none

/-- `contributionsByDate.get(dateStr) || { date: dateStr, count: 0, level: 0 }`. -/
def cellAt (data : List ContributionDay) (d : Int) : ContributionDay :=
  (contributionsByDate data d).getD ⟨d, 0, 0⟩

/-- The nested fill loop of `ContributionChart`: `n` weeks of 7 cells each,
advancing `currentDate` one day per cell. -/
def fillWeeks (data : List ContributionDay) : Nat → Int → List (List ContributionDay)
  | 0, _ => []
  | n + 1, d => ((List.range 7).map fun (j : Nat) => cellAt data (d + (j : Int))) :: fillWeeks data n (d + 7)

/-- The grid's first day: end on the next Saturday from today, subtract 370
days, and roll back to the preceding Sunday (`setDate` arithmetic of
`ContributionChart`). -/
def calendarStart (today : Int) : Int :=
  let endDate := today + (6 - jsGetDay today)
  let startDate := endDate - 370
  startDate - jsGetDay startDate

/-- The 53-week grid built by `ContributionChart` from today's day index and
the sparse contribution list. -/
def contributionGrid (today : Int) (data : List ContributionDay) : List (List ContributionDay) :=
  fillWeeks data 53 (calendarStart today)

/-- A `Map.get` hit always returns a record carrying the looked-up date. -/
theorem contributionsByDate_date {data : List ContributionDay} {d : Int} {c : ContributionDay}
    (h : contributionsByDate data d = some c) : c.date = d := by
  have key : ∀ (l : List ContributionDay) (acc : Option ContributionDay),
      (∀ x, acc = some x → x.date = d) →
      l.foldl (fun acc c => if c.date = d then some c else acc) acc = some c → c.date = d := by
    intro l
    induction l with
    | nil => exact fun acc hacc h => hacc _ h
    | cons a t ih =>
      intro acc hacc h
      simp only [List.foldl_cons] at h
      refine ih _ ?_ h
      intro x hx
      by_cases hd : a.date = d
      · simp only [hd, if_pos rfl] at hx
        cases hx
        exact hd
      · rw [if_neg hd] at hx
        exact hacc _ hx
  exact key data none (by simp) h

/-- The cell generated for a day always carries that day's date. -/
theorem cellAt_date (data : List ContributionDay) (d : Int) : (cellAt data d).date = d := by
  unfold cellAt
  cases h : contributionsByDate data d with
  | none => rfl
  | some c => simpa using contributionsByDate_date h

/-- A day absent from the sparse input is filled with the zero cell. -/
theorem cellAt_default {data : List ContributionDay} {d : Int}
    (h : contributionsByDate data d = none) : cellAt data d = ⟨d, 0, 0⟩ := by
  simp [cellAt, h]

/-- The fill loop produces exactly `n` weeks. -/
theorem fillWeeks_length (data : List ContributionDay) (n : Nat) (d : Int) :
    (fillWeeks data n d).length = n := by
  induction n generalizing d with
  | zero => rfl
  | succ n ih => simp [fillWeeks, ih]

/-- Every produced week holds exactly 7 cells. -/
theorem fillWeeks_week_length (data : List ContributionDay) (n : Nat) (d : Int) :
    ∀ w ∈ fillWeeks data n d, w.length = 7 := by
  induction n generalizing d with
  | zero => intro w hw; cases hw
  | succ n ih =>
    intro w hw
    rcases hw with _ | hw
    · simp
    · exact ih _ _ (by assumption)

/-- Flattening the grid gives one cell per consecutive day from the start. -/
theorem fillWeeks_flatten (data : List ContributionDay) (n : Nat) (d : Int) :
    (fillWeeks data n d).flatten = (List.range (7 * n)).map fun (i : Nat) => cellAt data (d + (i : Int)) := by
  induction n generalizing d with
  | zero => simp [fillWeeks]
  | succ n ih =>
    have hsplit : 7 * (n + 1) = 7 + 7 * n := by ring
    rw [fillWeeks, List.flatten_cons, ih, hsplit, List.range_add, List.map_append, List.map_map]
    congr 1
    refine List.map_congr_left fun i hi => ?_
    simp only [Function.comp]
    congr 1
    push_cast
    ring

/-- The dates of the flattened grid are exactly 371 consecutive day
indices from the computed start day. -/
theorem contributionGrid_dates (today : Int) (data : List ContributionDay) :
    (contributionGrid today data).flatten.map ContributionDay.date =
      (List.range 371).map fun (i : Nat) => calendarStart today + (i : Int) := by
  rw [contributionGrid, fillWeeks_flatten, List.map_map]
  refine List.map_congr_left fun i hi => ?_
  simp [Function.comp, cellAt_date]

/-- C2: for every current day and every sparse contribution list, the grid
has exactly 53 weeks of 7 cells — 371 cells in total — the cell dates are
strictly increasing (hence unique), and every date absent from the sparse
input is filled with a zero-count, zero-level cell. -/
theorem contributionGrid_spec (today : Int) (data : List ContributionDay) :
    (contributionGrid today data).length = 53 ∧
    (∀ w ∈ contributionGrid today data, w.length = 7) ∧
    (contributionGrid today data).flatten.length = 371 ∧
    ((contributionGrid today data).flatten.map ContributionDay.date).Pairwise (· < ·) ∧
    ((contributionGrid today data).flatten.map ContributionDay.date).Nodup ∧
    (∀ c ∈ (contributionGrid today data).flatten,
      contributionsByDate data c.date = none → c.count = 0 ∧ c.level = 0) := by
  have hpair : ((contributionGrid today data).flatten.map ContributionDay.date).Pairwise (· < ·) := by
    rw [contributionGrid_dates]
    exact (List.pairwise_lt_range 371).map _ (fun a b h => by
      exact add_lt_add_left (by exact_mod_cast h) _)
  refine ⟨fillWeeks_length data 53 _, fillWeeks_week_length data 53 _, ?_, hpair, ?_, ?_⟩
  · have := congrArg List.length (contributionGrid_dates today data)
    simpa using this
  · exact hpair.imp ne_of_lt
  · intro c hc hnone
    rw [contributionGrid, fillWeeks_flatten] at hc
    obtain ⟨i, hi, rfl⟩ := List.mem_map.1 hc
    rw [cellAt_date] at hnone
    rw [cellAt_default hnone]
    exact ⟨rfl, rfl⟩

/-- Witness for the grid theorem at a concrete day index and sparse input:
53 weeks, and the cell of an absent date is the zero cell. -/
theorem contributionGrid_spec_witness :
    (contributionGrid 20000 [⟨19631, 7, 3⟩]).length = 53 ∧
    ((cellAt [⟨19631, 7, 3⟩] 19700).count = 0 ∧ (cellAt [⟨19631, 7, 3⟩] 19700).level = 0) := by
  obtain ⟨h1, h2, h3, h4, h5, h6⟩ := contributionGrid_spec 20000 [⟨19631, 7, 3⟩]
  exact ⟨h1, h6 (cellAt [⟨19631, 7, 3⟩] 19700) (by decide) (by decide)⟩

/-- JS `header.split(',')`: cut a character list at every comma. -/
def splitOnComma (l : List Char) : List (List Char) :=
  l.foldr (fun c acc =>
    match acc with
    | [] => if c = ',' then [[], []] else [[c]]
    | cur :: rest => if c = ',' then [] :: cur :: rest else (c :: cur) :: rest) [[]]

/-- Digit run to its decimal value (JS `parseInt(digits, 10)`). -/
def digitsToNat (l : List Char) : Nat :=
  l.foldl (fun n c => 10 * n + (c.toNat - '0'.toNat)) 0

/-- The regex `/[?&]page=(\d+)/` of `analyzeRepo`
(`src/services/githubService.ts`): leftmost occurrence of `?` or `&`
followed by `page=` and at least one digit; the captured group is the
maximal digit run. -/
def matchPageNumber : List Char → Option Nat
  | [] => none
  | c :: rest =>
    if (c = '?' || c = '&') && "page=".data.isPrefixOf rest &&
        (match rest.drop 5 with | d :: _ => d.isDigit | [] => false) then
      some (digitsToNat ((rest.drop 5).takeWhile Char.isDigit))
    else matchPageNumber rest

/-- The regex `/[?&]page=(\d+)>; rel="last"/` of the second service
variant's `analyzeRepo`: as above, but the digit run must be followed
immediately by `>; rel="last"`. -/
def matchPageLast : List Char → Option Nat
  | [] => none
  | c :: rest =>
    if (c = '?' || c = '&') && "page=".data.isPrefixOf rest &&
        !((rest.drop 5).takeWhile Char.isDigit).isEmpty &&
        ">; rel=\"last\"".data.isPrefixOf ((rest.drop 5).dropWhile Char.isDigit) then
      some (digitsToNat ((rest.drop 5).takeWhile Char.isDigit))
    else matchPageLast rest

/-- Commit-count inference of `analyzeRepo` in
`src/services/githubService.ts`: split the `Link` header at commas, take the
first segment containing `rel="last"`, extract its page number; if that
yields a positive count use it, otherwise use the length of the returned
page when it is an array (`none` models a non-array body), else 0. -/
def inferCommitCount (link : Option String) (bodyLen : Option Nat) : Nat :=
  let countFromHeader :=
    match link with
    | none => 0
    | some l =>
      match (splitOnComma l.data).find? (fun seg => hasInfix "rel=\"last\"".data seg) with
      | none => 0
      | some seg => (matchPageNumber seg).getD 0
  if countFromHeader > 0 then countFromHeader
  else bodyLen.getD 0

/-- Commit-count inference of the second service variant: one regex over the
whole header, falling back to the page length whenever the parsed count is
zero. -/
def inferCommitCountV2 (link : Option String) (bodyLen : Option Nat) : Nat :=
  let commitCount :=
    match link with
    | none => 0
    | some l => (matchPageLast l.data).getD 0
  if commitCount = 0 then bodyLen.getD 0
  else commitCount

/-- A GitHub-style `Link` response header whose `rel="last"` entry carries
`page=42`. -/
def linkHeader42 : String :=
  "<https://api.github.com/repositories/123/commits?per_page=1&page=2>; rel=\"next\", <https://api.github.com/repositories/123/commits?per_page=1&page=42>; rel=\"last\""

set_option maxRecDepth 4096 in
/-- C3: with a `Link` header whose `rel="last"` entry carries `page=42`, the
inferred commit count is 42; with no `Link` header and a single-element
page, it is 1 — in both service variants. -/
theorem inferCommitCount_spec :
    inferCommitCount (some linkHeader42) (some 1) = 42 ∧
    inferCommitCount none (some 1) = 1 ∧
    inferCommitCountV2 (some linkHeader42) (some 1) = 42 ∧
    inferCommitCountV2 none (some 1) = 1 := by
  refine ⟨by decide, by decide, by decide, by decide⟩

/-- JS `x || d` on a possibly-absent number: absent or zero gives the
default (0 is falsy). -/
def jsOrNum (x : Option Int) (d : Int) : Int :=
  match x with
  | none => d
  | some v => if v = 0 then d else v

/-- JS `x || d` on a possibly-absent string: absent or empty gives the
default ("" is falsy). -/
def jsOrStr (x : Option String) (d : String) : String :=
  match x with
  | none => d
  | some s => if s = "" then d else s

/-- JS `x >= b` where `x` may be `undefined` (then the comparison is
false). -/
def jsGeOpt (x : Option Int) (b : Int) : Bool :=
  match x with
  | none => false
  | some v => decide (b ≤ v)

/-- A repository record from the GitHub `/users/:u/repos` response, with
the fields the service reads. -/
structure GhRepo where
  fullName : String
  description : Option String
  stargazersCount : Int
  forksCount : Int
  language : Option String
  htmlUrl : String
  fork : Bool
  deriving DecidableEq, Repr

/-- The user record from the GitHub `/users/:u` response. -/
structure GhUser where
  login : String
  name : Option String
  avatarUrl : String
  bio : Option String
  followers : Int
  following : Int
  publicRepos : Int
  createdAt : String
  deriving DecidableEq, Repr

/-- One entry of the AI response's `topRepos` array. -/
structure AIRepoEntry where
  name : String
  pitch : Option String
  qualityScore : Option Int
  deriving DecidableEq, Repr

/-- The parsed profile-analysis AI response of
`src/services/githubService.ts`; fields other than `topRepos` are defaulted
by the merge, `topRepos` is dereferenced without a guard. -/
structure AIProfileAnalysis where
  profileSummary : Option String
  starRating : Option Int
  mainExpertise : Option (List String)
  healthScore : Option Int
  suggestions : Option (List String)
  topRepos : List AIRepoEntry
  deriving DecidableEq, Repr

/-- The parsed profile-analysis AI response of the second service variant,
which guards `topRepos` with `?.`. -/
structure AIProfileAnalysisV2 where
  profileSummary : Option String
  starRating : Option Int
  mainExpertise : Option (List String)
  healthScore : Option Int
  suggestions : Option (List String)
  topRepos : Option (List AIRepoEntry)
  deriving DecidableEq, Repr

/-- `topReposPreAnalysis` element: the ground-truth projection of a repo. -/
structure PreRepo where
  name : String
  description : Option String
  stars : Int
  language : Option String
  url : String
  deriving DecidableEq, Repr

/-- `RepoInfo` of the output: the pre-analysis fields plus the AI-derived
pitch and quality score. -/
structure RepoInfo where
  name : String
  description : Option String
  stars : Int
  language : Option String
  url : String
  pitch : String
  qualityScore : Int
  deriving DecidableEq, Repr

/-- A catalog badge before the `earned` flag is attached. -/
structure BadgeInfo where
  id : String
  name : String
  description : String
  deriving DecidableEq, Repr

/-- A badge of the output, with its computed `earned` flag. -/
structure Badge where
  id : String
  name : String
  description : String
  earned : Bool
  deriving DecidableEq, Repr

/-- `ALL_BADGES` of `src/services/githubService.ts`. -/
def ALL_BADGES : List BadgeInfo :=
  [⟨"POLYGLOT", "Polyglot", "Use 5 or more distinct languages in public repositories."⟩,
   ⟨"STAR_GAZER", "Star Gazer", "Own a repository with 100+ stars."⟩,
   ⟨"COMMIT_MACHINE", "Commit Machine", "Make over 500 commits in the last year."⟩,
   ⟨"PERFECT_README", "Perfect Readme", "Have at least one repository with an AI-rated quality score of 90+."⟩,
   ⟨"COMMUNITY_BUILDER", "Community Builder", "Own a repository with 25+ forks."⟩,
   ⟨"TOP_10_PERCENT", "Top 10%", "Have a profile health score of 90 or higher."⟩]

/-- `ALL_BADGES` of the second service variant (same ids, shorter texts). -/
def ALL_BADGESV2 : List BadgeInfo :=
  [⟨"POLYGLOT", "Polyglot", "Use 5+ languages."⟩,
   ⟨"STAR_GAZER", "Star Gazer", "Repo with 100+ stars."⟩,
   ⟨"COMMIT_MACHINE", "Commit Machine", "500+ commits."⟩,
   ⟨"PERFECT_README", "Perfect Readme", "Quality score 90+."⟩,
   ⟨"COMMUNITY_BUILDER", "Community Builder", "25+ forks."⟩,
   ⟨"TOP_10_PERCENT", "Top 10%", "Health score 90+."⟩]

/-- Bump a language's count in the insertion-ordered tally
(`languageDistribution[lang] = (languageDistribution[lang] || 0) + 1`). -/
def bumpLang (dist : List (String × Int)) (lang : String) : List (String × Int) :=
  if dist.any fun p => p.1 == lang then
    dist.map fun p => if p.1 == lang then (p.1, p.2 + 1) else p
  else dist ++ [(lang, 1)]

/-- The per-language repository tally over the (already fork-filtered)
repositories; keys are unique and in first-seen order, mirroring a JS
object used as a map. -/
def languageDistribution (repos : List GhRepo) : List (String × Int) :=
  repos.foldl (fun dist r =>
    match r.language with
    | some l => bumpLang dist l
    | none => dist) []

/-- `totalStars += repo.stargazers_count` over the non-fork repositories. -/
def totalStarsOf (repos : List GhRepo) : Int :=
  repos.foldl (fun s r => s + r.stargazersCount) 0

/-- Stable insertion into a descending-by-stars list (the JS
`sort((a, b) => b.stargazers_count - a.stargazers_count)`). -/
def insertByStars (r : GhRepo) : List GhRepo → List GhRepo
  | [] => [r]
  | x :: xs => if x.stargazersCount ≤ r.stargazersCount then r :: x :: xs else x :: insertByStars r xs

/-- Descending stable sort by star count. -/
def sortByStarsDesc (repos : List GhRepo) : List GhRepo :=
  repos.foldr insertByStars []

/-- `topReposPreAnalysis`: sort by stars descending, keep the top 10,
project the ground-truth fields. -/
def topReposPreAnalysis (repos : List GhRepo) : List PreRepo :=
  ((sortByStarsDesc repos).take 10).map fun r =>
    ⟨r.fullName, r.description, r.stargazersCount, r.language, r.htmlUrl⟩

/-- The merge of one pre-analysis repo with the AI's `topRepos` entries in
`src/services/githubService.ts`: exact-name lookup, falsy-defaulting pitch
to "An interesting project." and qualityScore to 60. -/
def mergeOneRepo (ai : List AIRepoEntry) (repo : PreRepo) : RepoInfo :=
  let aiRepoData := ai.find? fun r => r.name == repo.name
  { name := repo.name, description := repo.description, stars := repo.stars,
    language := repo.language, url := repo.url,
    pitch := jsOrStr (aiRepoData.bind AIRepoEntry.pitch) "An interesting project.",
    qualityScore := jsOrNum (aiRepoData.bind AIRepoEntry.qualityScore) 60 }

/-- `topReposPreAnalysis.map(...)` merge loop of
`src/services/githubService.ts`. -/
def mergeTopRepos (pre : List PreRepo) (ai : List AIRepoEntry) : List RepoInfo :=
  pre.map (mergeOneRepo ai)

/-- The merge of the second service variant: `analysis.topRepos?.find`,
fallback pitch "Cool project", fallback qualityScore 80. -/
def mergeOneRepoV2 (ai : Option (List AIRepoEntry)) (repo : PreRepo) : RepoInfo :=
  let aiData := ai.bind fun l => l.find? fun r => r.name == repo.name
  { name := repo.name, description := repo.description, stars := repo.stars,
    language := repo.language, url := repo.url,
    pitch := jsOrStr (aiData.bind AIRepoEntry.pitch) "Cool project",
    qualityScore := jsOrNum (aiData.bind AIRepoEntry.qualityScore) 80 }

/-- Merge loop of the second service variant. -/
def mergeTopReposV2 (pre : List PreRepo) (ai : Option (List AIRepoEntry)) : List RepoInfo :=
  pre.map (mergeOneRepoV2 ai)

/-- The `switch (badge.id)` of `analyzeProfile` in
`src/services/githubService.ts`, as a predicate of the request-local
facts. -/
def badgeEarned (badgeId : String) (dist : List (String × Int)) (repos : List GhRepo)
    (topRepos : List RepoInfo) (user : GhUser) (healthScore : Option Int) : Bool :=
  if badgeId == "POLYGLOT" then decide (5 ≤ dist.length)
  else if badgeId == "STAR_GAZER" then repos.any fun r => decide ((100 : Int) ≤ r.stargazersCount)
  else if badgeId == "COMMIT_MACHINE" then decide ((50 : Int) < user.publicRepos)
  else if badgeId == "PERFECT_README" then topRepos.any fun r => decide ((90 : Int) ≤ r.qualityScore)
  else if badgeId == "COMMUNITY_BUILDER" then repos.any fun r => decide ((25 : Int) ≤ r.forksCount)
  else if badgeId == "TOP_10_PERCENT" then jsGeOpt healthScore 90
  else false

/-- `contributionData.reduce((acc, d) => acc + d.count, 0)`. -/
def sumContributions (data : List ContributionDay) : Int :=
  data.foldl (fun acc d => acc + d.count) 0

/-- The badge conditions of the second service variant: identical except
that COMMIT_MACHINE sums the fetched contribution calendar (an unavailable
feed degrades to an empty list) instead of using the public-repo proxy. -/
def badgeEarnedV2 (badgeId : String) (dist : List (String × Int)) (repos : List GhRepo)
    (topRepos : List RepoInfo) (contributions : List ContributionDay)
    (healthScore : Option Int) : Bool :=
  if badgeId == "POLYGLOT" then decide (5 ≤ dist.length)
  else if badgeId == "STAR_GAZER" then repos.any fun r => decide ((100 : Int) ≤ r.stargazersCount)
  else if badgeId == "COMMIT_MACHINE" then decide ((500 : Int) < sumContributions contributions)
  else if badgeId == "PERFECT_README" then topRepos.any fun r => decide ((90 : Int) ≤ r.qualityScore)
  else if badgeId == "COMMUNITY_BUILDER" then repos.any fun r => decide ((25 : Int) ≤ r.forksCount)
  else if badgeId == "TOP_10_PERCENT" then jsGeOpt healthScore 90
  else false

/-- The `ProfileAnalysisResult` aggregate of `types.ts` (the V2 variant
additionally carries the contribution data). -/
structure ProfileAnalysisResult where
  login : String
  name : Option String
  avatarUrl : String
  bio : Option String
  followers : Int
  following : Int
  publicRepoCount : Int
  createdAt : String
  totalStars : Int
  topRepos : List RepoInfo
  languageDistribution : List (String × Int)
  profileSummary : String
  starRating : Int
  mainExpertise : List String
  healthScore : Int
  badges : List Badge
  suggestions : List String
  contributionData : List ContributionDay
  deriving DecidableEq, Repr

/-- The pure aggregation tail of `analyzeProfile` in
`src/services/githubService.ts`: everything after the GitHub fetches and the
AI call, as a function of the fetched user, the fetched repository page and
the parsed AI response. (That service fetches no contribution feed, so the
extra `contributionData` slot of the aggregate is empty.) -/
def buildProfileResult (user : GhUser) (reposFetched : List GhRepo)
    (analysis : AIProfileAnalysis) : ProfileAnalysisResult :=
  let repos := reposFetched.filter fun r => !r.fork
  let dist := languageDistribution repos
  let pre := topReposPreAnalysis repos
  let top := mergeTopRepos pre analysis.topRepos
  let badges := ALL_BADGES.map fun b =>
    ⟨b.id, b.name, b.description, badgeEarned b.id dist repos top user analysis.healthScore⟩
  { login := user.login, name := user.name, avatarUrl := user.avatarUrl, bio := user.bio,
    followers := user.followers, following := user.following,
    publicRepoCount := user.publicRepos, createdAt := user.createdAt,
    totalStars := totalStarsOf repos, topRepos := top, languageDistribution := dist,
    profileSummary := jsOrStr analysis.profileSummary "No summary generated.",
    starRating := jsOrNum analysis.starRating 0,
    mainExpertise := analysis.mainExpertise.getD [],
    healthScore := jsOrNum analysis.healthScore 0,
    badges := badges,
    suggestions := analysis.suggestions.getD [],
    contributionData := [] }

/-- The pure aggregation tail of the second service variant's
`analyzeProfile`: same shape, but the contribution feed is an input, the
AI-absent defaults differ (summary "No summary", healthScore 50) and the
badge logic is `badgeEarnedV2`. -/
def buildProfileResultV2 (user : GhUser) (reposFetched : List GhRepo)
    (contributions : List ContributionDay) (analysis : AIProfileAnalysisV2) :
    ProfileAnalysisResult :=
  let repos := reposFetched.filter fun r => !r.fork
  let dist := languageDistribution repos
  let pre := topReposPreAnalysis repos
  let top := mergeTopReposV2 pre analysis.topRepos
  let badges := ALL_BADGESV2.map fun b =>
    ⟨b.id, b.name, b.description, badgeEarnedV2 b.id dist repos top contributions analysis.healthScore⟩
  { login := user.login, name := user.name, avatarUrl := user.avatarUrl, bio := user.bio,
    followers := user.followers, following := user.following,
    publicRepoCount := user.publicRepos, createdAt := user.createdAt,
    totalStars := totalStarsOf repos, topRepos := top, languageDistribution := dist,
    profileSummary := jsOrStr analysis.profileSummary "No summary",
    starRating := jsOrNum analysis.starRating 0,
    mainExpertise := analysis.mainExpertise.getD [],
    healthScore := jsOrNum analysis.healthScore 50,
    badges := badges,
    suggestions := analysis.suggestions.getD [],
    contributionData := contributions }

/-- A concrete fetched user (61 public repos would differ; 60 > 50 keeps the
proxy predicate true). -/
def demoUser : GhUser :=
  ⟨"alice", some "Alice", "https://avatars.example/alice", none, 10, 5, 60, "2015-01-01T00:00:00Z"⟩

/-- A concrete fetched non-fork repository. -/
def demoRepo : GhRepo :=
  ⟨"alice/widget", some "a widget", 5, 1, some "TypeScript", "https://github.com/alice/widget", false⟩

/-- The pre-analysis projection of `demoRepo`. -/
def demoPre : PreRepo :=
  ⟨"alice/widget", some "a widget", 5, some "TypeScript", "https://github.com/alice/widget"⟩

/-- An AI response with every optional field absent and no `topRepos`
entries. -/
def emptyAnalysis : AIProfileAnalysis := ⟨none, none, none, none, none, []⟩

/-- Same for the second service variant (with `topRepos` present but
empty). -/
def emptyAnalysisV2 : AIProfileAnalysisV2 := ⟨none, none, none, none, none, some []⟩

/-- C4: in both service variants, every profile result's badge list has
exactly 6 entries whose ids are the fixed catalog ids in catalog order, and
every catalog id appears exactly once; each entry carries its computed
Boolean `earned` flag by construction of the badge list. -/
theorem profile_badges_catalog (user : GhUser) (reposFetched : List GhRepo)
    (contributions : List ContributionDay) (a1 : AIProfileAnalysis) (a2 : AIProfileAnalysisV2) :
    (buildProfileResult user reposFetched a1).badges.map Badge.id =
      ["POLYGLOT", "STAR_GAZER", "COMMIT_MACHINE", "PERFECT_README", "COMMUNITY_BUILDER", "TOP_10_PERCENT"] ∧
    (buildProfileResult user reposFetched a1).badges.length = 6 ∧
    (buildProfileResultV2 user reposFetched contributions a2).badges.map Badge.id =
      ["POLYGLOT", "STAR_GAZER", "COMMIT_MACHINE", "PERFECT_README", "COMMUNITY_BUILDER", "TOP_10_PERCENT"] ∧
    (buildProfileResultV2 user reposFetched contributions a2).badges.length = 6 ∧
    (∀ i ∈ ["POLYGLOT", "STAR_GAZER", "COMMIT_MACHINE", "PERFECT_README", "COMMUNITY_BUILDER", "TOP_10_PERCENT"],
      ((buildProfileResult user reposFetched a1).badges.map Badge.id).count i = 1 ∧
      ((buildProfileResultV2 user reposFetched contributions a2).badges.map Badge.id).count i = 1) := by
  refine ⟨rfl, rfl, rfl, rfl, ?_⟩
  intro i hi
  fin_cases hi <;> exact ⟨rfl, rfl⟩

/-- Witness for the badge-catalog theorem at concrete inputs: POLYGLOT
occurs exactly once in each output's badge ids. -/
theorem profile_badges_catalog_witness :
    ((buildProfileResult demoUser [demoRepo] emptyAnalysis).badges.map Badge.id).count "POLYGLOT" = 1 ∧
    ((buildProfileResultV2 demoUser [demoRepo] [] emptyAnalysisV2).badges.map Badge.id).count "POLYGLOT" = 1 :=
  (profile_badges_catalog demoUser [demoRepo] [] emptyAnalysis emptyAnalysisV2).2.2.2.2
    "POLYGLOT" (by decide)

/-- C5 counterexample: in the second service variant's merge, a top-10
ground-truth repo with no exact-name AI match receives pitch "Cool project",
not the claimed "An interesting project.". -/
theorem topReposMerge_counterexample :
    (buildProfileResultV2 demoUser [demoRepo] [] emptyAnalysisV2).topRepos.map RepoInfo.pitch =
      ["Cool project"] ∧
    (buildProfileResultV2 demoUser [demoRepo] [] emptyAnalysisV2).topRepos.map RepoInfo.pitch ≠
      ["An interesting project."] := by
  exact ⟨rfl, by decide⟩

/-- C5 amended: for a top-10 ground-truth repo with no exact-name AI match,
the primary service's merge assigns pitch "An interesting project." and
qualityScore 60; the second variant's merge assigns pitch "Cool project" and
qualityScore 80; in both, the fields are always populated. -/
theorem topReposMerge_fallback (pre : List PreRepo) (ai : List AIRepoEntry)
    (aiOpt : Option (List AIRepoEntry)) (repo : PreRepo) (hmem : repo ∈ pre)
    (h1 : ai.find? (fun r => r.name == repo.name) = none)
    (h2 : (aiOpt.getD []).find? (fun r => r.name == repo.name) = none) :
    (mergeOneRepo ai repo ∈ mergeTopRepos pre ai ∧
      (mergeOneRepo ai repo).pitch = "An interesting project." ∧
      (mergeOneRepo ai repo).qualityScore = 60) ∧
    (mergeOneRepoV2 aiOpt repo ∈ mergeTopReposV2 pre aiOpt ∧
      (mergeOneRepoV2 aiOpt repo).pitch = "Cool project" ∧
      (mergeOneRepoV2 aiOpt repo).qualityScore = 80) := by
  have h2' : aiOpt.bind (fun l => l.find? fun r => r.name == repo.name) = none := by
    cases aiOpt with
    | none => rfl
    | some l => simpa using h2
  refine ⟨⟨List.mem_map_of_mem _ hmem, ?_, ?_⟩, ⟨List.mem_map_of_mem _ hmem, ?_, ?_⟩⟩ <;>
    simp [mergeOneRepo, mergeOneRepoV2, h1, h2', jsOrStr, jsOrNum]

/-- Witness for the merge-fallback theorem at concrete inputs. -/
theorem topReposMerge_fallback_witness :
    (mergeOneRepo [] demoPre).pitch = "An interesting project." ∧
    (mergeOneRepoV2 (some []) demoPre).pitch = "Cool project" :=
  ⟨(topReposMerge_fallback [demoPre] [] (some []) demoPre (by decide) rfl rfl).1.2.1,
   (topReposMerge_fallback [demoPre] [] (some []) demoPre (by decide) rfl rfl).2.2.1⟩

/-- C6 counterexample: in the calendar-based service variant, with the
contribution feed unavailable (degraded to the empty list) and 60 public
repos, COMMIT_MACHINE is not earned — the claimed public-repo fallback is
never consulted there. -/
theorem commitMachine_counterexample :
    (buildProfileResultV2 demoUser [demoRepo] [] emptyAnalysisV2).badges.find?
        (fun b => b.id == "COMMIT_MACHINE") =
      some ⟨"COMMIT_MACHINE", "Commit Machine", "500+ commits.", false⟩ ∧
    (50 : Int) < demoUser.publicRepos := by
  exact ⟨rfl, by decide⟩

/-- C6 amended: the calendar-based variant earns COMMIT_MACHINE iff the
summed contribution count exceeds 500 (an unavailable feed sums to 0, with
no fallback to the repo-count proxy), while the primary service earns it iff
the public repo count exceeds 50, unconditionally. -/
theorem commitMachine_amended (user : GhUser) (reposFetched : List GhRepo)
    (contributions : List ContributionDay) (a1 : AIProfileAnalysis) (a2 : AIProfileAnalysisV2) :
    (buildProfileResult user reposFetched a1).badges.find? (fun b => b.id == "COMMIT_MACHINE") =
      some ⟨"COMMIT_MACHINE", "Commit Machine", "Make over 500 commits in the last year.",
        decide ((50 : Int) < user.publicRepos)⟩ ∧
    (buildProfileResultV2 user reposFetched contributions a2).badges.find?
        (fun b => b.id == "COMMIT_MACHINE") =
      some ⟨"COMMIT_MACHINE", "Commit Machine", "500+ commits.",
        decide ((500 : Int) < sumContributions contributions)⟩ :=
  ⟨rfl, rfl⟩

/-- C8 counterexample: an AI-reported healthScore of 150 is passed through
unclamped into the profile result. -/
theorem healthScore_counterexample :
    (buildProfileResult demoUser [demoRepo] ⟨none, none, none, some 150, none, []⟩).healthScore = 150 ∧
    ¬((buildProfileResult demoUser [demoRepo] ⟨none, none, none, some 150, none, []⟩).healthScore ≤ 100) := by
  exact ⟨rfl, by decide⟩

/-- C8 amended: healthScore is always populated — the primary service
defaults an absent (or zero, both being falsy) AI value to 0 and the second
variant to 50 — but no clamping is applied: any nonzero AI value, in range
or not, is passed through. -/
theorem healthScore_amended (user : GhUser) (reposFetched : List GhRepo)
    (contributions : List ContributionDay) (a1 : AIProfileAnalysis) (a2 : AIProfileAnalysisV2) :
    ((a1.healthScore = none ∨ a1.healthScore = some 0) →
      (buildProfileResult user reposFetched a1).healthScore = 0) ∧
    (∀ h : Int, a1.healthScore = some h → h ≠ 0 →
      (buildProfileResult user reposFetched a1).healthScore = h) ∧
    ((a2.healthScore = none ∨ a2.healthScore = some 0) →
      (buildProfileResultV2 user reposFetched contributions a2).healthScore = 50) ∧
    (∀ h : Int, a2.healthScore = some h → h ≠ 0 →
      (buildProfileResultV2 user reposFetched contributions a2).healthScore = h) := by
  refine ⟨fun h => ?_, fun h hh hne => ?_, fun h => ?_, fun h hh hne => ?_⟩ <;>
    first
      | (rcases h with h | h <;> simp [buildProfileResult, buildProfileResultV2, jsOrNum, h])
      | simp [buildProfileResult, buildProfileResultV2, jsOrNum, hh, hne]

/-- Witness for the healthScore theorem at concrete inputs: absent AI values
give the two documented defaults. -/
theorem healthScore_amended_witness :
    (buildProfileResult demoUser [demoRepo] emptyAnalysis).healthScore = 0 ∧
    (buildProfileResultV2 demoUser [demoRepo] [] emptyAnalysisV2).healthScore = 50 :=
  ⟨(healthScore_amended demoUser [demoRepo] [] emptyAnalysis emptyAnalysisV2).1 (Or.inl rfl),
   (healthScore_amended demoUser [demoRepo] [] emptyAnalysis emptyAnalysisV2).2.2.1 (Or.inl rfl)⟩

/-- One glossary entry of the repo-analysis AI response. -/
structure GlossaryItem where
  name : String
  type : String
  path : String
  deriving DecidableEq, Repr

/-- The parsed repo-analysis AI response; every field may be absent and is
defaulted by the merge. -/
structure RepoAIAnalysis where
  items : Option (List GlossaryItem)
  techStack : Option (List String)
  fileStructureSummary : Option String
  starRating : Option Int
  deriving DecidableEq, Repr

/-- The `AnalysisResult` aggregate of `types.ts`. -/
structure AnalysisResult where
  repoName : String
  items : List GlossaryItem
  techStack : List String
  fileStructureSummary : String
  commitCount : Nat
  starRating : Int
  deriving DecidableEq, Repr

/-- The decision tail of `analyzeRepo` in `src/services/githubService.ts`,
from the fetched file tree onward: sample the tree; if the sample is empty,
throw the "no representative files" error before any AI work; otherwise
consult the AI (its parsed response, or `none` for an unusable one, is an
input) and merge. The Bool records whether control reached the
`generateContent` call. -/
def analyzeRepoFromTree (fullName : String) (tree : List FileEntry) (commitCount : Nat)
    (aiResponse : Option RepoAIAnalysis) : Except String AnalysisResult × Bool :=
  let representativeFilePaths := selectRepresentativeFiles tree
  if representativeFilePaths.length = 0 then
    (Except.error "Could not find any representative source code files to analyze in this repository.",
      false)
  else
    match aiResponse with
    | none =>
      (Except.error "Failed to analyze the repository. The AI model may be temporarily unavailable or returned an unexpected response.",
        true)
    | some analysis =>
      (Except.ok
        { repoName := fullName, items := analysis.items.getD [],
          techStack := analysis.techStack.getD [],
          fileStructureSummary := jsOrStr analysis.fileStructureSummary "No summary generated.",
          commitCount := commitCount, starRating := jsOrNum analysis.starRating 0 },
        true)

/-- The decision tail of the second service variant's `analyzeRepo`: it has
no emptiness guard at all — the AI is consulted even when the sample is
empty. -/
def analyzeRepoFromTreeV2 (fullName : String) (tree : List FileEntry) (commitCount : Nat)
    (aiResponse : Option RepoAIAnalysis) : Except String AnalysisResult × Bool :=
  let _representativeFilePaths := selectRepresentativeFilesV2 tree
  match aiResponse with
  | none => (Except.error "AI analysis failed. Please check your API key.", true)
  | some analysis =>
    (Except.ok
      { repoName := fullName, items := analysis.items.getD [],
        techStack := analysis.techStack.getD [],
        fileStructureSummary := jsOrStr analysis.fileStructureSummary "No summary generated.",
        commitCount := commitCount, starRating := jsOrNum analysis.starRating 0 },
      true)

/-- A file tree with no source files at all. -/
def noSourceTree : List FileEntry := [⟨"README.md", "blob"⟩]

/-- A concrete parsed repo-analysis AI response. -/
def demoRepoAI : RepoAIAnalysis := ⟨some [], some [], some "summary", some 4⟩

/-- C7 counterexample: in the second service variant, a tree whose filtered
sample is empty still reaches the AI call and the request succeeds — no "no
representative files" failure is raised there. -/
theorem emptySampler_counterexample :
    selectRepresentativeFilesV2 noSourceTree = [] ∧
    (analyzeRepoFromTreeV2 "octo/demo" noSourceTree 3 (some demoRepoAI)).2 = true ∧
    (analyzeRepoFromTreeV2 "octo/demo" noSourceTree 3 (some demoRepoAI)).1 =
      Except.ok ⟨"octo/demo", [], [], "summary", 3, 4⟩ := by
  exact ⟨rfl, rfl, rfl⟩

/-- C7 amended: the primary service fails a repository analysis whose
filtered sample is empty with the "no representative files" error, before
any AI call; the second service variant has no such guard and always
proceeds to the AI call. -/
theorem emptySampler_fails (fullName : String) (tree : List FileEntry) (cc : Nat)
    (ai : Option RepoAIAnalysis) (h : selectRepresentativeFiles tree = []) :
    analyzeRepoFromTree fullName tree cc ai =
      (Except.error "Could not find any representative source code files to analyze in this repository.",
        false) ∧
    (analyzeRepoFromTreeV2 fullName tree cc ai).2 = true := by
  constructor
  · simp [analyzeRepoFromTree, h]
  · cases ai <;> rfl

/-- Witness for the empty-sample theorem at a concrete sourceless tree. -/
theorem emptySampler_fails_witness :
    analyzeRepoFromTree "octo/demo" noSourceTree 3 (some demoRepoAI) =
      (Except.error "Could not find any representative source code files to analyze in this repository.",
        false) ∧
    (analyzeRepoFromTreeV2 "octo/demo" noSourceTree 3 (some demoRepoAI)).2 = true :=
  emptySampler_fails "octo/demo" noSourceTree 3 (some demoRepoAI) (by decide)

/-- A glossary entry and an oversized AI glossary of 21 entries. -/
def item1 : GlossaryItem := ⟨"helper", "Function", "src/app.ts"⟩

/-- 21 copies of `item1`. -/
def items21 : List GlossaryItem := List.replicate 21 item1

/-- C9 counterexample: an AI response carrying 21 glossary entries yields an
`AnalysisResult` whose `items` list has length 21 — the ≤ 20 bound is not
enforced by the merge. -/
theorem itemsCap_counterexample :
    (analyzeRepoFromTree "octo/demo" demoTree 3 (some ⟨some items21, some [], some "summary", some 4⟩)).1 =
      Except.ok ⟨"octo/demo", items21, [], "summary", 3, 4⟩ ∧
    items21.length = 21 ∧ ¬(items21.length ≤ 20) := by
  exact ⟨rfl, rfl, by decide⟩

/-- C9 amended: both services pass the AI glossary through unchanged
(defaulting to empty when absent); the returned `items` list is bounded by
20 exactly when the AI returned at most 20 entries — the cap is requested in
the prompt, not enforced in code. -/
theorem itemsCap_amended (fullName : String) (tree : List FileEntry) (cc : Nat)
    (a : RepoAIAnalysis) (r r2 : AnalysisResult)
    (h : (analyzeRepoFromTree fullName tree cc (some a)).1 = Except.ok r)
    (h2 : (analyzeRepoFromTreeV2 fullName tree cc (some a)).1 = Except.ok r2) :
    r.items = a.items.getD [] ∧ r2.items = a.items.getD [] ∧
    ((a.items.getD []).length ≤ 20 → r.items.length ≤ 20 ∧ r2.items.length ≤ 20) := by
  unfold analyzeRepoFromTree at h
  unfold analyzeRepoFromTreeV2 at h2
  by_cases hlen : (selectRepresentativeFiles tree).length = 0
  · rw [if_pos hlen] at h
    exact absurd h (by simp)
  · rw [if_neg hlen] at h
    simp only at h h2
    cases h
    cases h2
    exact ⟨rfl, rfl, fun hle => ⟨hle, hle⟩⟩

/-- Witness for the items pass-through theorem at concrete inputs. -/
theorem itemsCap_amended_witness :
    ([item1] : List GlossaryItem) = (some [item1] : Option (List GlossaryItem)).getD [] ∧
    (([item1] : List GlossaryItem).length ≤ 20) := by
  have h := itemsCap_amended "octo/demo" demoTree 3 ⟨some [item1], some [], some "summary", some 4⟩
    ⟨"octo/demo", [item1], [], "summary", 3, 4⟩ ⟨"octo/demo", [item1], [], "summary", 3, 4⟩ rfl rfl
  exact ⟨h.1.symm ▸ rfl, (h.2.2 (by decide)).1⟩

end GlossGen
